import Mathlib

/-!
Shallow embedding of the CarTunes web-player clients.

The repository ships one current frontend (src/frontend/app/room/[roomId]/page.tsx
together with src/frontend/hooks/use-websocket.ts) and several historical client
revisions (src/unnamed/part_001, part_003, part_005).  The definitions below
translate the WebSocket message handlers, the queue helpers, the audio-status
polling loop, the playback/skip command handlers and the reconnection logic of
those files.  Times are rationals (the TypeScript values are numbers); HTTP
statuses are naturals.
-/

/-- One queue entry as the clients store it: a room-scoped queue-item id, the
source video id and the duration in seconds. -/
structure Song where
  id : String
  video_id : String
  duration : Rat
  deriving DecidableEq, Repr

/-- Client copy of the authoritative playback tuple. -/
structure PlaybackState where
  is_playing : Bool
  current_time : Rat
  deriving DecidableEq, Repr

/-- Client copy of the room snapshot (the fields the handlers touch). -/
structure Room where
  current_song : Option Song
  queue : List Song
  playback_state : PlaybackState
  active_users : Nat
  deriving DecidableEq, Repr

namespace PageTsx

/-- SONG_CHANGED case of handleWebSocketMessage in
src/frontend/app/room/[roomId]/page.tsx (lines 183-209): stores the new
current_song, resets current_time to 0 and keeps is_playing only while a song
is present (no song forces is_playing to false). -/
def songChangedUpdate (current_song : Option Song) (prev : Room) : Room :=
  { prev with
      current_song := current_song
      playback_state :=
        { prev.playback_state with
            current_time := 0
            is_playing :=
              match current_song with
              | some _ => prev.playback_state.is_playing
              | none => false } }

/-- SONG_REMOVED case of handleWebSocketMessage in
src/frontend/app/room/[roomId]/page.tsx (lines 239-248): drops from the queue
every entry whose id equals the removed song_id and touches nothing else. -/
def songRemovedUpdate (song_id : String) (prev : Room) : Room :=
  { prev with queue := prev.queue.filter (fun song => !(song.id == song_id)) }

end PageTsx

namespace Part003

/-- SONG_CHANGED case of handleWebSocketMessage in src/unnamed/part_003
(lines 205-231): stores the new current_song and resets current_time to 0; the
source comment says it deliberately does not touch is_playing (the backend
sends a separate PLAYBACK_STATE_CHANGED). -/
def songChangedUpdate (current_song : Option Song) (prev : Room) : Room :=
  { prev with
      current_song := current_song
      playback_state := { prev.playback_state with current_time := 0 } }

/-- SONG_REMOVED case of handleWebSocketMessage in src/unnamed/part_003
(lines 266-275), textually the same filter as the current frontend. -/
def songRemovedUpdate (song_id : String) (prev : Room) : Room :=
  { prev with queue := prev.queue.filter (fun song => !(song.id == song_id)) }

/-- bringSongToTop in src/unnamed/part_003 (lines 794-815): looks the song up
by queue-item id; when absent it returns without issuing any request, otherwise
it PUTs a reorder whose id list is the moved song followed by the ids of every
other entry in their original order.  The returned value is the body of the
reorder request (none when no request is issued). -/
def bringSongToTop (queue : List Song) (songId : String) : Option (List String) :=
  match queue.find? (fun s => s.id == songId) with
  | none => none
  | some songToMove =>
      some ((songToMove :: queue.filter (fun s => !(s.id == songId))).map Song.id)

end Part003

/-- Spec-side helper for the bring-to-top law: the ids of the queue with every
occurrence of x removed, order preserved. -/
def queueWithout (queue : List Song) (x : String) : List String :=
  (queue.filter (fun s => !(s.id == x))).map Song.id

/-- View of the client display state that the PLAYBACK_PROGRESS handlers touch:
the React currentTime state and the audio element's playback position. -/
structure ClientView where
  currentTime : Rat
  audioCurrentTime : Rat
  deriving DecidableEq, Repr

namespace PageTsx

/-- PLAYBACK_PROGRESS case of handleWebSocketMessage in
src/frontend/app/room/[roomId]/page.tsx (lines 375-385): stores the payload
into currentTime unchanged, and resyncs the audio element only when it has
drifted more than one second from the payload. -/
def playbackProgressUpdate (current_time : Rat) (v : ClientView) : ClientView :=
  { currentTime := current_time
    audioCurrentTime :=
      if 1 < |v.audioCurrentTime - current_time| then current_time
      else v.audioCurrentTime }

/-- Whole-second value rendered next to the progress bar in
src/frontend/app/room/[roomId]/page.tsx line 864:
formatTime(Math.floor(currentTime)), with no clamping. -/
def renderedSeconds (v : ClientView) : Int := Int.floor v.currentTime

/-- One step of the local progress interval in
src/frontend/app/room/[roomId]/page.tsx (lines 663-690):
setCurrentTime(prevTime => prevTime + 1) once per second. -/
def progressTick (t : Rat) : Rat := t + 1

/-- Time displayed k whole seconds after the progress effect last ran for the
anchor ps: seeded from the anchor's current_time and incremented once per
second while playing, left at the anchor's current_time while paused. -/
def shownTime (ps : PlaybackState) (k : Nat) : Rat :=
  if ps.is_playing then progressTick^[k] ps.current_time else ps.current_time

end PageTsx

namespace Part003

/-- PLAYBACK_PROGRESS case of handleWebSocketMessage in src/unnamed/part_003
(lines 440-453): a negative payload is clamped — setCurrentTime(0) — and the
handler breaks out; a non-negative payload is stored as is (the audio-start
logic further down does not change currentTime). -/
def playbackProgressUpdate (current_time : Rat) (v : ClientView) : ClientView :=
  if current_time < 0 then { v with currentTime := 0 }
  else { v with currentTime := current_time }

/-- Whole-second value rendered next to the progress bar in src/unnamed/part_003
line 1093: formatTime(Math.floor(Math.max(0, currentTime))). -/
def renderedSeconds (v : ClientView) : Int := Int.floor (max 0 v.currentTime)

end Part003

namespace Part005

/-- One step of the local progress interval in src/unnamed/part_005
(lines 1213-1239): setCurrentTime(prevTime => Math.max(0, prevTime + 1)). -/
def progressTick (t : Rat) : Rat := max 0 (t + 1)

/-- Time displayed k whole seconds after the progress effect last ran for the
anchor ps in src/unnamed/part_005: seeded with Math.max(0, current_time) and
stepped once per second by progressTick while playing; while paused it shows
Math.max(0, current_time). -/
def shownTime (ps : PlaybackState) (k : Nat) : Rat :=
  if ps.is_playing then progressTick^[k] (max 0 ps.current_time)
  else max 0 ps.current_time

end Part005

/-- Live-position law stated by the spec (section 3): position + (T -
last_updated) while playing, else position; elapsed stands for T -
last_updated. -/
def specLivePosition (ps : PlaybackState) (elapsed : Rat) : Rat :=
  if ps.is_playing then ps.current_time + elapsed else ps.current_time

/-- True on exactly the HTTP statuses the Fetch API marks response.ok (200-299). -/
def respOk (status : Nat) : Bool := 200 ≤ status && status < 300

/-- Local audio-element action a command handler may perform. -/
inductive AudioAction
  | play
  | pause
  deriving DecidableEq, Repr

/-- Observable client effect of one playback or skip command round trip:
whether an error message was surfaced, the playback state adopted from the
backend response (if any), and the local audio action taken (if any). -/
structure CmdEffect where
  errorShown : Bool
  playbackUpdated : Option PlaybackState
  audioAction : Option AudioAction
  deriving DecidableEq, Repr

/-- No error, no state change, no audio action. -/
def noEffect : CmdEffect :=
  { errorShown := false, playbackUpdated := none, audioAction := none }

/-- Classification of a command round trip. -/
inductive CmdOutcome
  | throttled
  | failed
  | completed
  deriving DecidableEq, Repr

namespace Part005

/-- Play branch (scenario 1) of togglePlayback in src/unnamed/part_005
(lines 999-1026): the room is paused and the user presses play.  Status 429
logs and returns before any state or audio change; any other non-ok response
throws, and the catch sets the error message; an ok response plays the local
audio and adopts the backend playback state. -/
def togglePlayBranch (status : Nat) (backend : PlaybackState) : CmdEffect :=
  if status == 429 then noEffect
  else if !(respOk status) then
    { errorShown := true, playbackUpdated := none, audioAction := none }
  else
    { errorShown := false, playbackUpdated := some backend,
      audioAction := some AudioAction.play }

/-- Pause branch (scenario 3) of togglePlayback in src/unnamed/part_005
(lines 1099-1148), symmetric to the play branch with a local pause. -/
def togglePauseBranch (status : Nat) (backend : PlaybackState) : CmdEffect :=
  if status == 429 then noEffect
  else if !(respOk status) then
    { errorShown := true, playbackUpdated := none, audioAction := none }
  else
    { errorShown := false, playbackUpdated := some backend,
      audioAction := some AudioAction.pause }

/-- Outcome of the play branch: 429 is the early throttled return, any other
non-ok status lands in the catch, ok completes. -/
def togglePlayOutcome (status : Nat) : CmdOutcome :=
  if status == 429 then CmdOutcome.throttled
  else if !(respOk status) then CmdOutcome.failed
  else CmdOutcome.completed

/-- Outcome of skipToNext in src/unnamed/part_005 (lines 1153-1165): a 429
logs and returns early; every other status simply falls off the end of the
function, with no error handling keyed on the status. -/
def skipOutcome (status : Nat) : CmdOutcome :=
  if status == 429 then CmdOutcome.throttled else CmdOutcome.completed

/-- Client effect of skipToNext: no branch of the function shows an error,
touches the room state or the audio element, whatever the response status. -/
def skipToNextEffect (_status : Nat) : CmdEffect := noEffect

end Part005

/-- Parsed real-time message; the socket-level dispatch looks only at the type
tag. -/
structure WsMessage where
  type : String
  deriving DecidableEq, Repr

/-- Observable effect of dispatching one parsed socket message. -/
structure MsgEffect where
  pongSent : Bool
  forwarded : Bool
  silentAudioPlayed : Bool
  silentAudioStopped : Bool
  deriving DecidableEq, Repr

namespace UseWebSocket

/-- onmessage dispatch in src/frontend/hooks/use-websocket.ts (lines 98-114):
a ping plays the silent keep-alive audio, answers with a pong message on the
same socket and returns before reaching the application handler; a
playback_started message stops the silent audio and is forwarded; every other
type is forwarded untouched. -/
def onMessageEffect (m : WsMessage) : MsgEffect :=
  if m.type == "ping" then
    { pongSent := true, forwarded := false,
      silentAudioPlayed := true, silentAudioStopped := false }
  else if m.type == "playback_started" then
    { pongSent := false, forwarded := true,
      silentAudioPlayed := false, silentAudioStopped := true }
  else
    { pongSent := false, forwarded := true,
      silentAudioPlayed := false, silentAudioStopped := false }

end UseWebSocket

/-- Flags of the audio loader that the HEAD probe in loadAudio manipulates. -/
structure LoadAudioState where
  songDownloading : Bool
  audioLoading : Bool
  audioError : Option String
  loadingTimeoutActive : Bool
  deriving DecidableEq, Repr

namespace Part001

/-- Error message loadAudio shows when the stream URL answers 404. -/
def notFoundMessage : String := "歌曲不存在或無法下載"

/-- HEAD-probe response handling inside loadAudio in src/unnamed/part_001
(lines 176-215): 202 marks the song as still downloading on the server; 404
sets the not-found error, clears the loading and downloading flags and cancels
the 30-second loading timeout; any other ok status clears the downloading
flag; anything else changes nothing. -/
def headProbeUpdate (status : Nat) (st : LoadAudioState) : LoadAudioState :=
  if status == 202 then { st with songDownloading := true }
  else if status == 404 then
    { songDownloading := false, audioLoading := false,
      audioError := some notFoundMessage, loadingTimeoutActive := false }
  else if respOk status then { st with songDownloading := false }
  else st

end Part001

/-- Book-keeping of the audio status poller: the video ids currently being
checked (audioStatusCheckingRef) and the video ids with a registered polling
interval (statusCheckIntervalsRef), one list entry per live interval. -/
structure PollState where
  checking : List String
  intervals : List String
  deriving DecidableEq, Repr

namespace Part003

/-- Cleanup performed by the ready branch of checkStatus in
src/unnamed/part_003 (lines 538-556): the interval registered for the id, when
any, is cleared and the id is removed from the checking set. -/
def statusReadyCleanup (videoId : String) (st : PollState) : PollState :=
  { checking := st.checking.erase videoId
    intervals := st.intervals.erase videoId }

/-- One call of checkAudioStatus in src/unnamed/part_003 (lines 511-581): an
id already being checked returns at once with no new work; otherwise the id
joins the checking set, the status is probed once (readyNow), and only when
the probe does not answer ready is a 1-second polling interval registered for
the id. -/
def checkAudioStatusCall (videoId : String) (readyNow : Bool) (st : PollState) :
    PollState :=
  if st.checking.contains videoId then st
  else
    let started : PollState := { st with checking := videoId :: st.checking }
    if readyNow then statusReadyCleanup videoId started
    else { started with intervals := videoId :: started.intervals }

/-- One firing of the registered interval in src/unnamed/part_003
(lines 572-579): a ready answer clears the interval, and the ready branch of
checkStatus has removed the id from the checking set; otherwise nothing
changes. -/
def statusIntervalTick (videoId : String) (ready : Bool) (st : PollState) :
    PollState :=
  if ready then statusReadyCleanup videoId st else st

end Part003

/-- Event alphabet of the status poller: an external checkAudioStatus call, or
a firing of a registered interval; the Bool carries whether the backend
answered ready. -/
inductive PollEv
  | call (videoId : String) (readyNow : Bool)
  | tick (videoId : String) (ready : Bool)
  deriving DecidableEq, Repr

/-- Step function of the status poller. -/
def pollStep (e : PollEv) (st : PollState) : PollState :=
  match e with
  | PollEv.call v r => Part003.checkAudioStatusCall v r st
  | PollEv.tick v r => Part003.statusIntervalTick v r st

/-- Poller state after a sequence of events starting with nothing checked and
no interval registered. -/
def pollRun (evs : List PollEv) : PollState :=
  evs.foldl (fun st e => pollStep e st) { checking := [], intervals := [] }

/-- Invariant of the status poller: no duplicate ids in either list, and
every id with a registered interval is in the checking set. -/
def PollInv (st : PollState) : Prop :=
  st.checking.Nodup ∧ st.intervals.Nodup ∧ ∀ v ∈ st.intervals, v ∈ st.checking

/-- State of the reconnection logic of the useWebSocket hook: the attempt
counter, the current retry delay in milliseconds, the log of delays at which a
reconnect was actually scheduled, the number of onConnectionFailed
invocations, and whether a reconnect timeout is pending. -/
structure ReconnectState where
  attempts : Nat
  delay : Rat
  scheduledDelays : List Rat
  failedCalls : Nat
  pending : Bool
  deriving DecidableEq, Repr

namespace UseWebSocket

/-- onclose branch of connect in src/frontend/hooks/use-websocket.ts
(lines 130-149), taken while the hook is enabled and not manually closed: the
attempt counter is incremented; while it stays below maxReconnectAttempts a
reconnect is scheduled after the current delay and the delay then becomes
min(delay * 1.5 + jitter, 30000), jitter being the Math.random() * 1000 term;
once the counter reaches maxReconnectAttempts, onConnectionFailed is invoked
and nothing is scheduled. -/
def onCloseStep (maxReconnectAttempts : Nat) (jitter : Rat)
    (st : ReconnectState) : ReconnectState :=
  if st.attempts + 1 < maxReconnectAttempts then
    { attempts := st.attempts + 1
      delay := min (st.delay * (3 / 2) + jitter) 30000
      scheduledDelays := st.scheduledDelays ++ [st.delay]
      failedCalls := st.failedCalls
      pending := true }
  else
    { st with
        attempts := st.attempts + 1
        pending := false
        failedCalls := st.failedCalls + 1 }

/-- Run of consecutive unexpected closes (no successful open in between),
starting from a freshly connected state whose delay is the configured
reconnectInterval; one jitter sample per close. -/
def runCloses (maxReconnectAttempts : Nat) (reconnectInterval : Rat)
    (jitters : List Rat) : ReconnectState :=
  jitters.foldl (fun st j => onCloseStep maxReconnectAttempts j st)
    { attempts := 0, delay := reconnectInterval, scheduledDelays := [],
      failedCalls := 0, pending := false }

end UseWebSocket

/-- Delay sequence of the backoff recurrence: starts at d, then
min(d * 1.5 + j, 30000) for each successive jitter j. -/
def backoffDelays (d : Rat) : List Rat → List Rat
  | [] => []
  | j :: js => d :: backoffDelays (min (d * (3 / 2) + j) 30000) js

/-- Final value of the backoff recurrence after consuming the jitters. -/
def lastBackoff (d : Rat) : List Rat → Rat
  | [] => d
  | j :: js => lastBackoff (min (d * (3 / 2) + j) 30000) js

/-- CLAIM C2. Processing a SONG_CHANGED event never switches the client's
playback state to playing: the current frontend sets is_playing to the old
value conjoined with the presence of a song, and part_003 leaves is_playing
unchanged, so neither handler turns is_playing from false to true. -/
theorem songChanged_never_starts_playing (payload : Option Song) (room : Room) :
    (PageTsx.songChangedUpdate payload room).playback_state.is_playing
        = (room.playback_state.is_playing && payload.isSome)
      ∧ (Part003.songChangedUpdate payload room).playback_state.is_playing
        = room.playback_state.is_playing := by
  constructor
  · cases payload <;> simp [PageTsx.songChangedUpdate]
  · rfl

/-- CLAIM C5. A SONG_REMOVED event leaves current_song and playback_state
untouched in both clients, and the new queue is exactly the old queue with the
entries whose id equals song_id filtered out: it is a sublist of the old queue,
and membership is old membership plus a different id. -/
theorem songRemoved_frame (song_id : String) (room : Room) :
    (PageTsx.songRemovedUpdate song_id room).current_song = room.current_song
      ∧ (PageTsx.songRemovedUpdate song_id room).playback_state = room.playback_state
      ∧ (PageTsx.songRemovedUpdate song_id room).queue
          = room.queue.filter (fun song => !(song.id == song_id))
      ∧ (PageTsx.songRemovedUpdate song_id room).queue.Sublist room.queue
      ∧ (∀ s : Song, s ∈ (PageTsx.songRemovedUpdate song_id room).queue
          ↔ s ∈ room.queue ∧ s.id ≠ song_id)
      ∧ Part003.songRemovedUpdate song_id room = PageTsx.songRemovedUpdate song_id room := by
  refine ⟨rfl, rfl, rfl, List.filter_sublist _, ?_, rfl⟩
  intro s
  simp [PageTsx.songRemovedUpdate]

/-- CLAIM C4. bringSongToTop issues exactly the reorder [x] ++ queue_without(x)
when some entry has id x, and issues nothing when no entry does. -/
theorem bringSongToTop_spec (queue : List Song) (x : String) :
    Part003.bringSongToTop queue x
      = if queue.any (fun s => s.id == x)
        then some (x :: queueWithout queue x)
        else none := by
  cases hfind : queue.find? (fun s => s.id == x) with
  | none =>
      have hnone := List.find?_eq_none.mp hfind
      have hany : queue.any (fun s => s.id == x) = false := by
        rw [Bool.eq_false_iff]
        intro hcontra
        obtain ⟨s, hmem, hs⟩ := List.any_eq_true.mp hcontra
        exact hnone s hmem hs
      simp [Part003.bringSongToTop, hfind, hany]
  | some songToMove =>
      have hid : songToMove.id = x := by
        have := List.find?_some hfind
        simpa using this
      have hmem : songToMove ∈ queue := List.mem_of_find?_eq_some hfind
      have hany : queue.any (fun s => s.id == x) = true :=
        List.any_eq_true.mpr ⟨songToMove, hmem, by simp [hid]⟩
      simp [Part003.bringSongToTop, hfind, hany, queueWithout, hid]

lemma pageTick_iterate (t : Rat) (k : Nat) :
    PageTsx.progressTick^[k] t = t + k := by
  induction k with
  | zero => simp
  | succ n ih =>
      rw [Function.iterate_succ_apply', ih, PageTsx.progressTick]
      push_cast
      ring

lemma part005Tick_iterate (s : Rat) (h : 0 ≤ s) (k : Nat) :
    Part005.progressTick^[k] s = s + k := by
  induction k with
  | zero => simp
  | succ n ih =>
      rw [Function.iterate_succ_apply', ih, Part005.progressTick]
      rw [max_eq_right (by positivity)]
      push_cast
      ring

/-- CLAIM C1. The current frontend does not clamp a negative
PLAYBACK_PROGRESS payload: handling current_time = -3 leaves the stored
currentTime at -3 and the value rendered next to the progress bar at -3 < 0,
although the historical client part_003 clamps the same payload to 0 in both
the handler and the rendering. -/
theorem pageTsx_negative_progress_displayed :
    (PageTsx.playbackProgressUpdate (-3) ⟨0, 0⟩).currentTime = -3
      ∧ PageTsx.renderedSeconds (PageTsx.playbackProgressUpdate (-3) ⟨0, 0⟩) = -3
      ∧ PageTsx.renderedSeconds (PageTsx.playbackProgressUpdate (-3) ⟨0, 0⟩) < 0
      ∧ (Part003.playbackProgressUpdate (-3) ⟨0, 0⟩).currentTime = 0
      ∧ Part003.renderedSeconds (Part003.playbackProgressUpdate (-3) ⟨0, 0⟩) = 0 := by
  refine ⟨rfl, ?_, ?_, ?_, ?_⟩ <;>
    simp [PageTsx.renderedSeconds, PageTsx.playbackProgressUpdate,
      Part003.renderedSeconds, Part003.playbackProgressUpdate] <;> norm_num

/-- CLAIM C3 (counterexample). The part_005 progress loop clamps every step at
zero, so for the playing anchor with position -3, one second later it shows 1,
not the anchor recomputation position + elapsed = -2. -/
theorem part005_shown_differs_from_anchor :
    Part005.shownTime ⟨true, -3⟩ 1 = 1
      ∧ specLivePosition ⟨true, -3⟩ 1 = -2
      ∧ Part005.shownTime ⟨true, -3⟩ 1 ≠ specLivePosition ⟨true, -3⟩ 1 := by
  refine ⟨?_, ?_, ?_⟩
  · norm_num [Part005.shownTime, Part005.progressTick]
  · norm_num [specLivePosition]
  · norm_num [Part005.shownTime, Part005.progressTick, specLivePosition]

/-- CLAIM C3 (amended). Both clients maintain the displayed position as a
once-per-second incrementing local field seeded from the stored anchor.  For
the current frontend this reproduces the anchor recomputation exactly:
position + elapsed while playing, position while paused.  The part_005 client
clamps each step at zero, so while playing it shows max(0, position) + elapsed,
which differs from position + elapsed when the anchor position is negative. -/
theorem shownTime_characterization (ps : PlaybackState) (k : Nat) :
    PageTsx.shownTime ps k = specLivePosition ps k
      ∧ Part005.shownTime ps k
        = (if ps.is_playing then max 0 ps.current_time + k
           else max 0 ps.current_time) := by
  constructor
  · unfold PageTsx.shownTime specLivePosition
    cases hps : ps.is_playing <;> simp [pageTick_iterate]
  · unfold Part005.shownTime
    cases hps : ps.is_playing <;>
      simp [part005Tick_iterate (max 0 ps.current_time) (le_max_left 0 _)]

/-- CLAIM C6 (counterexample). A non-throttled, non-ok skip response is not
treated as a failure: status 500 is not ok, yet skipToNext classifies it as a
normal completion and surfaces no error, contradicting the claim that every
non-ok response other than 429 is treated as a failure. -/
theorem skip_500_not_treated_as_failure :
    respOk 500 = false
      ∧ (500 : Nat) ≠ 429
      ∧ Part005.skipOutcome 500 = CmdOutcome.completed
      ∧ Part005.skipOutcome 500 ≠ CmdOutcome.failed
      ∧ Part005.skipToNextEffect 500 = noEffect := by
  refine ⟨by decide, by decide, by decide, by decide, rfl⟩

/-- CLAIM C6 (amended). A throttled (429) playback or skip command is a
distinct ignored outcome: no error is shown, no room playback state is
mutated, no local audio is started or paused.  Any other non-ok response to
the playback command is treated as a failure (error shown, nothing mutated),
while skipToNext ignores every status other than 429 without failure
handling. -/
theorem playback_skip_throttle_handling (status : Nat) (backend : PlaybackState)
    (hne : status ≠ 429) (hok : respOk status = false) :
    Part005.togglePlayBranch 429 backend = noEffect
      ∧ Part005.togglePauseBranch 429 backend = noEffect
      ∧ Part005.skipToNextEffect 429 = noEffect
      ∧ Part005.togglePlayOutcome 429 = CmdOutcome.throttled
      ∧ Part005.skipOutcome 429 = CmdOutcome.throttled
      ∧ Part005.togglePlayBranch status backend
          = { errorShown := true, playbackUpdated := none, audioAction := none }
      ∧ Part005.togglePauseBranch status backend
          = { errorShown := true, playbackUpdated := none, audioAction := none }
      ∧ Part005.togglePlayOutcome status = CmdOutcome.failed
      ∧ Part005.skipOutcome status = CmdOutcome.completed := by
  have h429 : (status == 429) = false := by
    simp [hne]
  refine ⟨rfl, rfl, rfl, rfl, rfl, ?_, ?_, ?_, ?_⟩ <;>
    simp [Part005.togglePlayBranch, Part005.togglePauseBranch,
      Part005.togglePlayOutcome, Part005.skipOutcome, h429, hok]

/-- Closed witness for the C6 theorem at the concrete status 500. -/
theorem playback_skip_throttle_handling_witness :
    Part005.togglePlayBranch 429 { is_playing := false, current_time := 0 } = noEffect
      ∧ Part005.togglePlayOutcome 500 = CmdOutcome.failed := by
  have h := playback_skip_throttle_handling 500
    { is_playing := false, current_time := 0 } (by decide) (by decide)
  exact ⟨h.1, h.2.2.2.2.2.2.2.1⟩

/-- CLAIM C7. The socket dispatch answers exactly the ping messages with a
pong and forwards exactly the non-ping messages to the application handler:
pongSent holds precisely on type ping, and forwarding is its negation. -/
theorem ping_answered_with_pong (m : WsMessage) :
    (UseWebSocket.onMessageEffect m).pongSent = (m.type == "ping")
      ∧ (UseWebSocket.onMessageEffect m).forwarded = !(m.type == "ping") := by
  by_cases hping : m.type = "ping"
  · simp [UseWebSocket.onMessageEffect, hping]
  · have h1 : (m.type == "ping") = false := by simp [hping]
    by_cases hstart : m.type = "playback_started" <;>
      simp [UseWebSocket.onMessageEffect, h1, hstart]

/-- CLAIM C8. The HEAD probe distinguishes the not-yet-available stream from
the missing one: a 202 only raises the downloading flag and leaves the error
slot untouched, while a 404 sets the not-found error and clears the loading
flag, the downloading flag and the pending loading timeout. -/
theorem headProbe_distinguishes_states (st : LoadAudioState) :
    Part001.headProbeUpdate 202 st = { st with songDownloading := true }
      ∧ (Part001.headProbeUpdate 202 st).audioError = st.audioError
      ∧ (Part001.headProbeUpdate 202 st).songDownloading = true
      ∧ Part001.headProbeUpdate 404 st
          = { songDownloading := false, audioLoading := false,
              audioError := some Part001.notFoundMessage,
              loadingTimeoutActive := false } := by
  refine ⟨rfl, rfl, rfl, rfl⟩

lemma pollInv_step (e : PollEv) (st : PollState) (h : PollInv st) :
    PollInv (pollStep e st) := by
  obtain ⟨hc, hi, hsub⟩ := h
  cases e with
  | call v r =>
      show PollInv (Part003.checkAudioStatusCall v r st)
      unfold Part003.checkAudioStatusCall
      by_cases hmem : v ∈ st.checking
      · have hcon : st.checking.contains v = true := by
          simp [List.contains, List.elem_eq_mem, hmem]
        rw [hcon]
        exact ⟨hc, hi, hsub⟩
      · have hcon : st.checking.contains v = false := by
          simp [List.contains, List.elem_eq_mem, hmem]
        have hvi : v ∉ st.intervals := fun hx => hmem (hsub v hx)
        rw [hcon]
        simp only [Bool.false_eq_true, if_false]
        cases r with
        | true =>
            simp only [if_true, Part003.statusReadyCleanup]
            refine ⟨?_, ?_, ?_⟩
            · simpa [List.erase_cons_head] using hc
            · simpa [List.erase_of_not_mem hvi] using hi
            · intro x hx
              rw [List.erase_of_not_mem hvi] at hx
              simpa [List.erase_cons_head] using hsub x hx
        | false =>
            simp only [Bool.false_eq_true, if_false]
            refine ⟨?_, ?_, ?_⟩
            · exact List.nodup_cons.mpr ⟨hmem, hc⟩
            · exact List.nodup_cons.mpr ⟨hvi, hi⟩
            · intro x hx
              rcases List.mem_cons.mp hx with hx | hx
              · exact List.mem_cons.mpr (Or.inl hx)
              · exact List.mem_cons.mpr (Or.inr (hsub x hx))
  | tick v r =>
      show PollInv (Part003.statusIntervalTick v r st)
      unfold Part003.statusIntervalTick
      cases r with
      | true =>
          simp only [if_true, Part003.statusReadyCleanup]
          refine ⟨hc.erase v, hi.erase v, ?_⟩
          intro x hx
          obtain ⟨hxv, hxm⟩ := hi.mem_erase_iff.mp hx
          exact (hc.mem_erase_iff).mpr ⟨hxv, hsub x hxm⟩
      | false =>
          simp only [Bool.false_eq_true, if_false]
          exact ⟨hc, hi, hsub⟩

lemma pollRun_from_inv (evs : List PollEv) (st : PollState) (h : PollInv st) :
    PollInv (evs.foldl (fun s e => pollStep e s) st) := by
  induction evs generalizing st with
  | nil => exact h
  | cons e rest ih =>
      rw [List.foldl_cons]
      exact ih (pollStep e st) (pollInv_step e st h)

lemma pollRun_inv (evs : List PollEv) : PollInv (pollRun evs) :=
  pollRun_from_inv evs { checking := [], intervals := [] }
    ⟨List.nodup_nil, List.nodup_nil, by intro v hv; cases hv⟩

/-- CLAIM C9. Status polling is single-flight per track: after any sequence of
checkAudioStatus calls and interval firings, at most one polling interval is
registered for any video id, and a checkAudioStatus call for an id already in
the checking set returns the state unchanged, starting no additional work. -/
theorem status_polling_single_flight (evs : List PollEv) (videoId : String)
    (st : PollState) (readyNow : Bool)
    (halready : st.checking.contains videoId = true) :
    (pollRun evs).intervals.count videoId ≤ 1
      ∧ Part003.checkAudioStatusCall videoId readyNow st = st := by
  constructor
  · exact List.nodup_iff_count_le_one.mp (pollRun_inv evs).2.1 videoId
  · unfold Part003.checkAudioStatusCall
    rw [halready]
    simp

/-- Closed witness for the C9 theorem: after a call that registered an
interval for id a, a second call for a is the identity, and the run ends with
exactly one interval for a. -/
theorem status_polling_single_flight_witness :
    (PollState.mk ["a"] ["a"]).checking.contains "a" = true
      ∧ (pollRun [PollEv.call "a" false, PollEv.call "a" false]).intervals.count "a" ≤ 1
      ∧ Part003.checkAudioStatusCall "a" false (PollState.mk ["a"] ["a"])
          = PollState.mk ["a"] ["a"] := by
  have h := status_polling_single_flight
    [PollEv.call "a" false, PollEv.call "a" false] "a"
    (PollState.mk ["a"] ["a"]) false (by decide)
  exact ⟨by decide, h.1, h.2⟩


lemma backoffDelays_length (d : Rat) (js : List Rat) :
    (backoffDelays d js).length = js.length := by
  induction js generalizing d with
  | nil => rfl
  | cons j rest ih => simp [backoffDelays, ih]

lemma backoffDelays_le (d : Rat) (js : List Rat) (hd : d ≤ 30000) :
    ∀ x ∈ backoffDelays d js, x ≤ 30000 := by
  induction js generalizing d with
  | nil => intro x hx; cases hx
  | cons j rest ih =>
      intro x hx
      rcases List.mem_cons.mp hx with hx | hx
      · exact hx ▸ hd
      · exact ih (min (d * (3 / 2) + j) 30000) (min_le_right _ _) x hx

lemma runCloses_aux (m : Nat) (js : List Rat) (st : ReconnectState) :
    (js.foldl (fun s j => UseWebSocket.onCloseStep m j s) st).attempts
        = st.attempts + js.length
      ∧ (js.foldl (fun s j => UseWebSocket.onCloseStep m j s) st).delay
        = lastBackoff st.delay (js.take (m - 1 - st.attempts))
      ∧ (js.foldl (fun s j => UseWebSocket.onCloseStep m j s) st).scheduledDelays
        = st.scheduledDelays ++ backoffDelays st.delay (js.take (m - 1 - st.attempts))
      ∧ (js.foldl (fun s j => UseWebSocket.onCloseStep m j s) st).failedCalls
        = st.failedCalls + (js.length - min js.length (m - 1 - st.attempts))
      ∧ (js.foldl (fun s j => UseWebSocket.onCloseStep m j s) st).pending
        = (if js.isEmpty then st.pending
           else decide (st.attempts + js.length < m)) := by
  induction js generalizing st with
  | nil =>
      refine ⟨by simp, by simp [lastBackoff], by simp [backoffDelays], by simp, by simp⟩
  | cons j rest ih =>
      obtain ⟨ih1, ih2, ih3, ih4, ih5⟩ := ih (UseWebSocket.onCloseStep m j st)
      by_cases h : st.attempts + 1 < m
      · have ha : (UseWebSocket.onCloseStep m j st).attempts = st.attempts + 1 := by
          simp [UseWebSocket.onCloseStep, h]
        have hd : (UseWebSocket.onCloseStep m j st).delay
            = min (st.delay * (3 / 2) + j) 30000 := by
          simp [UseWebSocket.onCloseStep, h]
        have hs : (UseWebSocket.onCloseStep m j st).scheduledDelays
            = st.scheduledDelays ++ [st.delay] := by
          simp [UseWebSocket.onCloseStep, h]
        have hf : (UseWebSocket.onCloseStep m j st).failedCalls = st.failedCalls := by
          simp [UseWebSocket.onCloseStep, h]
        have hp : (UseWebSocket.onCloseStep m j st).pending = true := by
          simp [UseWebSocket.onCloseStep, h]
        obtain ⟨k, hk⟩ : ∃ k, m - 1 - st.attempts = k + 1 :=
          ⟨m - 2 - st.attempts, by omega⟩
        have hk2 : m - 1 - (st.attempts + 1) = k := by omega
        rw [ha] at ih1 ih2 ih3 ih4 ih5
        rw [hk2] at ih2 ih3 ih4
        refine ⟨?_, ?_, ?_, ?_, ?_⟩
        · rw [List.foldl_cons, ih1, List.length_cons]
          omega
        · rw [List.foldl_cons, ih2, hd, hk, List.take_succ_cons]
          simp [lastBackoff]
        · rw [List.foldl_cons, ih3, hd, hs, hk, List.take_succ_cons]
          simp [backoffDelays]
        · rw [List.foldl_cons, ih4, hf, List.length_cons]
          omega
        · rw [List.foldl_cons, ih5, hp]
          cases rest with
          | nil => simp [h]
          | cons r rs =>
              simp only [List.isEmpty_cons, Bool.false_eq_true, if_neg, if_false,
                List.length_cons]
              rw [decide_eq_decide]
              omega
      · have ha : (UseWebSocket.onCloseStep m j st).attempts = st.attempts + 1 := by
          simp [UseWebSocket.onCloseStep, h]
        have hd : (UseWebSocket.onCloseStep m j st).delay = st.delay := by
          simp [UseWebSocket.onCloseStep, h]
        have hs : (UseWebSocket.onCloseStep m j st).scheduledDelays
            = st.scheduledDelays := by
          simp [UseWebSocket.onCloseStep, h]
        have hf : (UseWebSocket.onCloseStep m j st).failedCalls
            = st.failedCalls + 1 := by
          simp [UseWebSocket.onCloseStep, h]
        have hp : (UseWebSocket.onCloseStep m j st).pending = false := by
          simp [UseWebSocket.onCloseStep, h]
        have h1 : m - 1 - st.attempts = 0 := by omega
        have h2 : m - 1 - (st.attempts + 1) = 0 := by omega
        rw [ha] at ih1 ih2 ih3 ih4 ih5
        rw [h2] at ih2 ih3 ih4
        refine ⟨?_, ?_, ?_, ?_, ?_⟩
        · rw [List.foldl_cons, ih1, List.length_cons]
          omega
        · rw [List.foldl_cons, ih2, hd, h1]
          simp [lastBackoff]
        · rw [List.foldl_cons, ih3, hd, hs, h1]
          simp [backoffDelays]
        · rw [List.foldl_cons, ih4, hf, List.length_cons, h1]
          omega
        · rw [List.foldl_cons, ih5, hp]
          cases rest with
          | nil =>
              simp only [List.isEmpty_nil, if_true, List.isEmpty_cons,
                Bool.false_eq_true, if_false, List.length_cons, List.length_nil]
              have : ¬ (st.attempts + (0 + 1) < m) := by omega
              simp [this]
          | cons r rs =>
              simp only [List.isEmpty_cons, Bool.false_eq_true, if_false,
                List.length_cons]
              rw [decide_eq_decide]
              omega

/-- CLAIM C10. Reconnection after an unexpected close is bounded: over any run
of consecutive closes while enabled and not manually closed, the number of
scheduled retries is min(closes, maxReconnectAttempts - 1), hence at most
maxReconnectAttempts; the successive retry delays follow the backoff
recurrence min(delay * 1.5 + jitter, 30000) starting from the configured
reconnectInterval and never exceed 30000 ms; and once the closes reach
maxReconnectAttempts, onConnectionFailed has been invoked and no reconnect is
left scheduled. -/
theorem reconnect_attempts_bounded (m : Nat) (reconnectInterval : Rat)
    (jitters : List Rat) (hm : 1 ≤ m) (hinit : reconnectInterval ≤ 30000) :
    (UseWebSocket.runCloses m reconnectInterval jitters).scheduledDelays.length
        = min jitters.length (m - 1)
      ∧ (UseWebSocket.runCloses m reconnectInterval jitters).scheduledDelays.length ≤ m
      ∧ (UseWebSocket.runCloses m reconnectInterval jitters).scheduledDelays
          = backoffDelays reconnectInterval (jitters.take (m - 1))
      ∧ (∀ d ∈ (UseWebSocket.runCloses m reconnectInterval jitters).scheduledDelays,
          d ≤ 30000)
      ∧ (m ≤ jitters.length →
          1 ≤ (UseWebSocket.runCloses m reconnectInterval jitters).failedCalls
            ∧ (UseWebSocket.runCloses m reconnectInterval jitters).pending = false) := by
  obtain ⟨h1, h2, h3, h4, h5⟩ := runCloses_aux m jitters
    { attempts := 0, delay := reconnectInterval, scheduledDelays := [],
      failedCalls := 0, pending := false }
  simp only [Nat.sub_zero, Nat.zero_add, List.nil_append] at h1 h2 h3 h4 h5
  have hsched : (UseWebSocket.runCloses m reconnectInterval jitters).scheduledDelays
      = backoffDelays reconnectInterval (jitters.take (m - 1)) := h3
  have hlen : (UseWebSocket.runCloses m reconnectInterval jitters).scheduledDelays.length
      = min (m - 1) jitters.length := by
    rw [hsched, backoffDelays_length, List.length_take]
  refine ⟨?_, ?_, hsched, ?_, ?_⟩
  · rw [hlen]; omega
  · rw [hlen]; omega
  · rw [hsched]
    exact backoffDelays_le reconnectInterval (jitters.take (m - 1)) hinit
  · intro hn
    constructor
    · have hfc : (UseWebSocket.runCloses m reconnectInterval jitters).failedCalls
          = jitters.length - min jitters.length (m - 1) := h4
      rw [hfc]; omega
    · have hpend : (UseWebSocket.runCloses m reconnectInterval jitters).pending
          = (if jitters.isEmpty then false
             else decide (jitters.length < m)) := h5
      rw [hpend]
      have hne : jitters.isEmpty = false := by
        cases jitters with
        | nil => simp at hn; omega
        | cons a l => rfl
      rw [hne]
      simp only [Bool.false_eq_true, if_false, decide_eq_false_iff_not]
      omega

/-- Closed witness for the C10 theorem: three allowed attempts, initial delay
1000 ms, four consecutive closes; two retries are scheduled at 1000 ms and
1500 ms, then onConnectionFailed fires and nothing further is scheduled. -/
theorem reconnect_attempts_bounded_witness :
    ((1 : Nat) ≤ 3 ∧ (1000 : Rat) ≤ 30000 ∧ 3 ≤ [(0 : Rat), 500, 999, 42].length)
      ∧ (UseWebSocket.runCloses 3 1000 [0, 500, 999, 42]).scheduledDelays
          = backoffDelays 1000 ([(0 : Rat), 500, 999, 42].take 2)
      ∧ (UseWebSocket.runCloses 3 1000 [0, 500, 999, 42]).scheduledDelays.length ≤ 3
      ∧ 1 ≤ (UseWebSocket.runCloses 3 1000 [0, 500, 999, 42]).failedCalls
      ∧ (UseWebSocket.runCloses 3 1000 [0, 500, 999, 42]).pending = false := by
  have h := reconnect_attempts_bounded 3 1000 [0, 500, 999, 42]
    (by norm_num) (by norm_num)
  have hboth := h.2.2.2.2 (by norm_num)
  exact ⟨⟨by norm_num, by norm_num, by norm_num⟩, h.2.2.1, h.2.1, hboth.1, hboth.2⟩
